import Mathlib

/-
Verification of the arena-generation and grid-collision core of the
rusty-gungeon repository (src/arena.rs, src/arena_rooms.rs, src/player.rs,
src/enemy.rs).

Modelling conventions:
  * `f32`/`f64` world-space arithmetic is embedded over `ℚ` (the source only
    adds, subtracts, halves and compares coordinates, so the algebra is exact).
  * `usize`/`i32` indices become `Nat`/`Int`; a `usize` subtraction that would
    underflow (a Rust panic in debug builds, followed by an out-of-bounds index
    panic in release builds) is modelled by returning `none`.
  * The process-random inputs (Perlin noise samples, obstacle dice rolls,
    enemy spawn indices) are passed in as explicit oracle functions/lists.
-/

namespace RustyGungeon

/-- `TileType` from src/arena.rs / src/arena_rooms.rs. -/
inductive TileType
  | Floor
  | Wall
deriving DecidableEq

export TileType (Floor Wall)

/-- The `grid: Vec<Vec<TileType>>` field of `ArenaGrid`, row-major. -/
abbrev Grid := List (List TileType)

/-- `arena_grid.grid[y][x]`, total with a `Floor` default for indices outside
the actual vectors (every verified access stays inside them). -/
def tileAtN (g : Grid) (x y : Nat) : TileType :=
  (g.getD y []).getD x Floor

/-- `grid[check_y as usize][check_x as usize]` for signed indices. -/
def tileAt (g : Grid) (gx gy : Int) : TileType :=
  tileAtN g gx.toNat gy.toNat

/-- The inclusive integer range `a..=b` of a Rust `for` loop. -/
def intRange (a b : Int) : List Int :=
  (List.range (b + 1 - a).toNat).map (fun k : Nat => a + (k : Int))

theorem mem_intRange {a b x : Int} : x ∈ intRange a b ↔ a ≤ x ∧ x ≤ b := by
  simp only [intRange, List.mem_map, List.mem_range]
  constructor
  · rintro ⟨k, hk, rfl⟩
    omega
  · rintro ⟨h1, h2⟩
    exact ⟨(x - a).toNat, by omega, by omega⟩

/-- The half-open range `a..b` of a Rust `for` loop over `usize`. -/
def natRange (a b : Nat) : List Nat :=
  (List.range (b - a)).map (fun k => a + k)

theorem mem_natRange {a b x : Nat} : x ∈ natRange a b ↔ a ≤ x ∧ x < b := by
  simp only [natRange, List.mem_map, List.mem_range]
  constructor
  · rintro ⟨k, hk, rfl⟩
    omega
  · rintro ⟨h1, h2⟩
    exact ⟨x - a, by omega, by omega⟩

/-- A `height × width` grid whose cell `(x, y)` holds `f x y`; the shape of
every whole-grid write pass in the generators. -/
def genGrid (w h : Nat) (f : Nat → Nat → TileType) : Grid :=
  (List.range h).map fun y => (List.range w).map fun x => f x y

theorem tileAtN_genGrid (w h : Nat) (f : Nat → Nat → TileType) {x y : Nat}
    (hx : x < w) (hy : y < h) : tileAtN (genGrid w h f) x y = f x y := by
  simp only [tileAtN, genGrid, List.getD_eq_getElem?_getD]
  rw [List.getElem?_map, List.getElem?_range hy]
  simp only [Option.map_some', Option.getD_some]
  rw [List.getElem?_map, List.getElem?_range hx]
  simp

/-- `grid[y][x] = t` (a no-op when the indices fall outside the vectors,
which never happens on the verified paths). -/
def setTile (g : Grid) (x y : Nat) (t : TileType) : Grid :=
  g.set y ((g.getD y []).set x t)

theorem tileAtN_setTile (g : Grid) (x y : Nat) (t : TileType) (x' y' : Nat) :
    tileAtN (setTile g x y t) x' y' = t ∨
    tileAtN (setTile g x y t) x' y' = tileAtN g x' y' := by
  simp only [tileAtN, setTile, List.getD_eq_getElem?_getD]
  rw [List.getElem?_set]
  rcases eq_or_ne y y' with rfl | hy
  · rw [if_pos rfl]
    by_cases hlen : y < g.length
    · rw [if_pos hlen]
      simp only [Option.getD_some]
      rw [List.getElem?_set]
      rcases eq_or_ne x x' with rfl | hx
      · rw [if_pos rfl]
        by_cases hxlen : x < (g[y]?.getD []).length
        · rw [if_pos hxlen]
          left
          simp
        · rw [if_neg hxlen]
          right
          rw [List.getElem?_eq_none (l := g[y]?.getD []) (by omega)]
      · rw [if_neg hx]
        right
        rfl
    · rw [if_neg hlen]
      right
      rw [List.getElem?_eq_none (l := g) (by omega)]
  · rw [if_neg hy]
    right
    rfl

namespace Arena

/-- `ARENA_WIDTH_TILES` from src/arena.rs. -/
def ARENA_WIDTH_TILES : Nat := 86

/-- `ARENA_HEIGHT_TILES` from src/arena.rs. -/
def ARENA_HEIGHT_TILES : Nat := 49

/-- `TILE_SIZE` from src/arena.rs. -/
def TILE_SIZE : ℚ := 15

end Arena

namespace Player

open Arena

/-- `check_aabb_collision` from src/player.rs (the identical copy lives in
src/enemy.rs): open-interval AABB overlap of two boxes given by center and
size. -/
def check_aabb_collision (pos1 size1 pos2 size2 : ℚ × ℚ) : Bool :=
  let min1 := (pos1.1 - size1.1 / 2, pos1.2 - size1.2 / 2)
  let max1 := (pos1.1 + size1.1 / 2, pos1.2 + size1.2 / 2)
  let min2 := (pos2.1 - size2.1 / 2, pos2.2 - size2.2 / 2)
  let max2 := (pos2.1 + size2.1 / 2, pos2.2 + size2.2 / 2)
  decide ((min1.1 < max2.1 ∧ max1.1 > min2.1) ∧ (min1.2 < max2.2 ∧ max1.2 > min2.2))

/-- `-total_arena_width_pixels / 2.0` of src/player.rs
`get_nearby_wall_positions_world`. -/
def arenaOffsetX : ℚ := -((ARENA_WIDTH_TILES : ℚ) * TILE_SIZE) / 2

/-- `-total_arena_height_pixels / 2.0`. -/
def arenaOffsetY : ℚ := -((ARENA_HEIGHT_TILES : ℚ) * TILE_SIZE) / 2

/-- World-space center of the tile at grid coordinate `(gx, gy)`:
`gx * TILE_SIZE + arena_offset_x + TILE_SIZE / 2` (used identically to place
walls in `setup_arena`, to report walls in `get_nearby_wall_positions_world`,
and to place enemies in `spawn_enemies`). -/
def tileCenterWorld (gx gy : Int) : ℚ × ℚ :=
  ((gx : ℚ) * TILE_SIZE + arenaOffsetX + TILE_SIZE / 2,
   (gy : ℚ) * TILE_SIZE + arenaOffsetY + TILE_SIZE / 2)

/-- The clamped inclusive x index range
`start_x_grid.max(0)..=end_x_grid.min(ARENA_WIDTH_TILES-1)` scanned by
src/player.rs `get_nearby_wall_positions_world` for a query at `p` of size
`s` (the search window is the object box expanded by one full tile). -/
def queryRangeX (p s : ℚ × ℚ) : List Int :=
  intRange
    (max ⌊(p.1 - s.1 / 2 - TILE_SIZE - arenaOffsetX) / TILE_SIZE⌋ 0)
    (min ⌈(p.1 + s.1 / 2 + TILE_SIZE - arenaOffsetX) / TILE_SIZE⌉ ((ARENA_WIDTH_TILES : Int) - 1))

/-- The clamped inclusive y index range scanned by the same function. -/
def queryRangeY (p s : ℚ × ℚ) : List Int :=
  intRange
    (max ⌊(p.2 - s.2 / 2 - TILE_SIZE - arenaOffsetY) / TILE_SIZE⌋ 0)
    (min ⌈(p.2 + s.2 / 2 + TILE_SIZE - arenaOffsetY) / TILE_SIZE⌉ ((ARENA_HEIGHT_TILES : Int) - 1))

/-- `get_nearby_wall_positions_world` from src/player.rs: world-space centers
of the Wall tiles inside the clamped query window. -/
def get_nearby_wall_positions_world (p s : ℚ × ℚ) (g : Grid) : List (ℚ × ℚ) :=
  (queryRangeY p s).flatMap fun gy =>
    (queryRangeX p s).filterMap fun gx =>
      if tileAt g gx gy = Wall then some (tileCenterWorld gx gy) else none

/-- Whether any Wall tile of the grid overlaps, in the open-interval AABB
sense, the box of size `s` centered at `p`. The spec-level notion the
collision code is measured against. -/
def overlapsSomeWall (g : Grid) (p s : ℚ × ℚ) : Bool :=
  (List.range g.length).any fun gy =>
    (List.range ((g.getD gy []).length)).any fun gx =>
      decide (tileAtN g gx gy = Wall) &&
        check_aabb_collision p s (tileCenterWorld (gx : Int) (gy : Int)) (TILE_SIZE, TILE_SIZE)

/-- A grid that fits inside the `ARENA_WIDTH_TILES × ARENA_HEIGHT_TILES`
arena (true of the published `ArenaGrid` resource, which is exactly that
size). -/
def fitsArena (g : Grid) : Prop :=
  g.length ≤ ARENA_HEIGHT_TILES ∧ ∀ row ∈ g, row.length ≤ ARENA_WIDTH_TILES

/-- The `for wall_pos_world in get_nearby... { if check_aabb_collision(...) {
collision = true; break } }` loop of the movement systems, as a Bool. -/
def collidesAt (g : Grid) (p s : ℚ × ℚ) : Bool :=
  (get_nearby_wall_positions_world p s g).any fun w =>
    check_aabb_collision p s w (TILE_SIZE, TILE_SIZE)

theorem check_aabb_collision_eq_true (pos1 size1 pos2 size2 : ℚ × ℚ) :
    check_aabb_collision pos1 size1 pos2 size2 = true ↔
      ((pos1.1 - size1.1 / 2 < pos2.1 + size2.1 / 2 ∧
        pos1.1 + size1.1 / 2 > pos2.1 - size2.1 / 2) ∧
       (pos1.2 - size1.2 / 2 < pos2.2 + size2.2 / 2 ∧
        pos1.2 + size1.2 / 2 > pos2.2 - size2.2 / 2)) := by
  simp [check_aabb_collision]

/-- Soundness of the spatial query: everything it returns is the center of an
in-bounds Wall tile. -/
theorem mem_get_nearby {p s : ℚ × ℚ} {g : Grid} {w : ℚ × ℚ}
    (hw : w ∈ get_nearby_wall_positions_world p s g) :
    ∃ gx gy : Int, 0 ≤ gx ∧ gx < (ARENA_WIDTH_TILES : Int) ∧
      0 ≤ gy ∧ gy < (ARENA_HEIGHT_TILES : Int) ∧
      tileAt g gx gy = Wall ∧ w = tileCenterWorld gx gy := by
  simp only [get_nearby_wall_positions_world, List.mem_flatMap,
    List.mem_filterMap] at hw
  obtain ⟨gy, hgy, gx, hgx, hif⟩ := hw
  rw [queryRangeY, mem_intRange] at hgy
  rw [queryRangeX, mem_intRange] at hgx
  by_cases hWall : tileAt g gx gy = Wall
  · rw [if_pos hWall] at hif
    refine ⟨gx, gy, by omega, by omega, by omega, by omega, hWall, ?_⟩
    exact (Option.some_inj.mp hif).symm
  · rw [if_neg hWall] at hif
    exact absurd hif (Option.some_ne_none _).symm

/-- Completeness of the spatial query: any in-bounds Wall tile whose box
overlaps the queried box is returned (the one-tile margin of the search
window exceeds the half-tile needed). -/
theorem get_nearby_complete {p s : ℚ × ℚ} {g : Grid} {gx gy : Int}
    (hx0 : 0 ≤ gx) (hx1 : gx < (ARENA_WIDTH_TILES : Int))
    (hy0 : 0 ≤ gy) (hy1 : gy < (ARENA_HEIGHT_TILES : Int))
    (hWall : tileAt g gx gy = Wall)
    (hov : check_aabb_collision p s (tileCenterWorld gx gy) (TILE_SIZE, TILE_SIZE) = true) :
    tileCenterWorld gx gy ∈ get_nearby_wall_positions_world p s g := by
  rw [check_aabb_collision_eq_true] at hov
  simp only [tileCenterWorld] at hov
  obtain ⟨⟨hovx1, hovx2⟩, ⟨hovy1, hovy2⟩⟩ := hov
  have hT : (0 : ℚ) < TILE_SIZE := by norm_num [TILE_SIZE]
  simp only [get_nearby_wall_positions_world, List.mem_flatMap,
    List.mem_filterMap]
  refine ⟨gy, ?_, gx, ?_, by rw [if_pos hWall]⟩
  · rw [queryRangeY, mem_intRange]
    constructor
    · have hfl : ⌊(p.2 - s.2 / 2 - TILE_SIZE - arenaOffsetY) / TILE_SIZE⌋ < gy := by
        rw [Int.floor_lt]
        rw [div_lt_iff₀ hT]
        linarith
      omega
    · have hce : gy < ⌈(p.2 + s.2 / 2 + TILE_SIZE - arenaOffsetY) / TILE_SIZE⌉ := by
        rw [Int.lt_ceil]
        rw [lt_div_iff₀ hT]
        linarith
      omega
  · rw [queryRangeX, mem_intRange]
    constructor
    · have hfl : ⌊(p.1 - s.1 / 2 - TILE_SIZE - arenaOffsetX) / TILE_SIZE⌋ < gx := by
        rw [Int.floor_lt]
        rw [div_lt_iff₀ hT]
        linarith
      omega
    · have hce : gx < ⌈(p.1 + s.1 / 2 + TILE_SIZE - arenaOffsetX) / TILE_SIZE⌉ := by
        rw [Int.lt_ceil]
        rw [lt_div_iff₀ hT]
        linarith
      omega

/-- A cell that holds `Wall` lies inside the actual vectors (the out-of-range
default of the model is `Floor`). -/
theorem tileAtN_wall_bounds {g : Grid} {x y : Nat} (h : tileAtN g x y = Wall) :
    y < g.length ∧ x < (g.getD y []).length := by
  by_cases hy : y < g.length
  · refine ⟨hy, ?_⟩
    by_cases hx : x < (g.getD y []).length
    · exact hx
    · rw [tileAtN, List.getD_eq_getElem?_getD (g.getD y []),
        List.getElem?_eq_none (by omega)] at h
      exact absurd h (by simp)
  · rw [tileAtN, List.getD_eq_getElem?_getD g, List.getElem?_eq_none (by omega)] at h
    exact absurd h (by simp)

/-- The collision loop of the movement systems detects a collision at `p`
exactly when some Wall tile of the grid overlaps the box at `p` (for grids
that fit inside the arena, as the published 86 × 49 grid does). -/
theorem collidesAt_eq_overlapsSomeWall {g : Grid} (hfit : fitsArena g) (p s : ℚ × ℚ) :
    collidesAt g p s = overlapsSomeWall g p s := by
  obtain ⟨hH, hW⟩ := hfit
  rw [Bool.eq_iff_iff]
  constructor
  · intro h
    rw [collidesAt, List.any_eq_true] at h
    obtain ⟨w, hw, hov⟩ := h
    obtain ⟨gx, gy, hx0, _, hy0, _, hWall, rfl⟩ := mem_get_nearby hw
    rw [tileAt] at hWall
    obtain ⟨hby, hbx⟩ := tileAtN_wall_bounds hWall
    rw [overlapsSomeWall, List.any_eq_true]
    refine ⟨gy.toNat, List.mem_range.mpr hby, ?_⟩
    rw [List.any_eq_true]
    refine ⟨gx.toNat, List.mem_range.mpr hbx, ?_⟩
    rw [Bool.and_eq_true, decide_eq_true_iff]
    rw [show ((gx.toNat : Int)) = gx by omega, show ((gy.toNat : Int)) = gy by omega]
    exact ⟨hWall, hov⟩
  · intro h
    rw [overlapsSomeWall, List.any_eq_true] at h
    obtain ⟨gy, hgy, h⟩ := h
    rw [List.any_eq_true] at h
    obtain ⟨gx, hgx, h⟩ := h
    rw [Bool.and_eq_true, decide_eq_true_iff] at h
    obtain ⟨hWall, hov⟩ := h
    rw [List.mem_range] at hgy hgx
    have hrow : (g.getD gy []).length ≤ ARENA_WIDTH_TILES := by
      apply hW
      rw [List.getD_eq_getElem?_getD g, List.getElem?_eq_getElem hgy]
      exact List.getElem_mem hgy
    have hWall' : tileAt g (gx : Int) (gy : Int) = Wall := by
      rw [tileAt, Int.toNat_natCast, Int.toNat_natCast]
      exact hWall
    rw [collidesAt, List.any_eq_true]
    exact ⟨tileCenterWorld (gx : Int) (gy : Int),
      get_nearby_complete (by omega) (by omega) (by omega) (by omega) hWall' hov,
      hov⟩

/-- The axis-separated collision resolution of `player_movement_system`
(src/player.rs lines 158-201): test the X-shifted position, commit X if free,
then test the Y-shifted position from there and commit Y if free. Returns the
final position. -/
def resolveMove (g : Grid) (pos size mv : ℚ × ℚ) : ℚ × ℚ :=
  let next_pos_x : ℚ × ℚ := (pos.1 + mv.1, pos.2)
  let collision_x : Bool := decide (mv.1 ≠ 0) && collidesAt g next_pos_x size
  let pos_after_x : ℚ × ℚ := if collision_x then pos else next_pos_x
  let next_pos_y : ℚ × ℚ := (pos_after_x.1, pos_after_x.2 + mv.2)
  let collision_y : Bool := decide (mv.2 ≠ 0) && collidesAt g next_pos_y size
  if collision_y then pos_after_x else next_pos_y

/-- The X phase of `resolveMove` on its own. -/
def xStep (g : Grid) (pos size mv : ℚ × ℚ) : ℚ × ℚ :=
  if decide (mv.1 ≠ 0) && collidesAt g (pos.1 + mv.1, pos.2) size then pos
  else (pos.1 + mv.1, pos.2)

/-- `resolveMove` is the Y phase applied after the X phase. -/
theorem resolveMove_eq (g : Grid) (pos size mv : ℚ × ℚ) :
    resolveMove g pos size mv =
      if decide (mv.2 ≠ 0) &&
          collidesAt g ((xStep g pos size mv).1, (xStep g pos size mv).2 + mv.2) size
      then xStep g pos size mv
      else ((xStep g pos size mv).1, (xStep g pos size mv).2 + mv.2) := rfl

/-- The X phase starting clear of the walls ends clear of the walls, moving
only by `mv.1` or `0` in x and not at all in y. -/
theorem xStep_spec {g : Grid} (hfit : fitsArena g) (pos size mv : ℚ × ℚ)
    (hstart : overlapsSomeWall g pos size = false) :
    ((xStep g pos size mv).1 = pos.1 ∨ (xStep g pos size mv).1 = pos.1 + mv.1) ∧
    (xStep g pos size mv).2 = pos.2 ∧
    overlapsSomeWall g (xStep g pos size mv) size = false := by
  rw [xStep, collidesAt_eq_overlapsSomeWall hfit]
  cases hb : (decide (mv.1 ≠ 0) && overlapsSomeWall g (pos.1 + mv.1, pos.2) size) with
  | true =>
    rw [if_pos rfl]
    exact ⟨Or.inl rfl, rfl, hstart⟩
  | false =>
    rw [if_neg (by simp)]
    refine ⟨Or.inr rfl, rfl, ?_⟩
    rcases Bool.and_eq_false_iff.mp hb with hb | hb
    · have hmv : mv.1 = 0 := by simpa using hb
      rw [hmv, add_zero, Prod.mk.eta]
      exact hstart
    · exact hb

/-- The Y phase starting clear of the walls ends clear of the walls, moving
only by `mv.2` or `0` in y and not at all in x. -/
theorem yPhase_spec {g : Grid} (hfit : fitsArena g) (q size : ℚ × ℚ) (d : ℚ)
    (hq : overlapsSomeWall g q size = false) :
    ((if decide (d ≠ 0) && collidesAt g (q.1, q.2 + d) size then q
      else (q.1, q.2 + d)).1 = q.1) ∧
    ((if decide (d ≠ 0) && collidesAt g (q.1, q.2 + d) size then q
      else (q.1, q.2 + d)).2 = q.2 ∨
     (if decide (d ≠ 0) && collidesAt g (q.1, q.2 + d) size then q
      else (q.1, q.2 + d)).2 = q.2 + d) ∧
    overlapsSomeWall g
      (if decide (d ≠ 0) && collidesAt g (q.1, q.2 + d) size then q
       else (q.1, q.2 + d)) size = false := by
  rw [collidesAt_eq_overlapsSomeWall hfit]
  cases hb : (decide (d ≠ 0) && overlapsSomeWall g (q.1, q.2 + d) size) with
  | true =>
    rw [if_pos rfl]
    exact ⟨rfl, Or.inl rfl, hq⟩
  | false =>
    rw [if_neg (by simp)]
    refine ⟨rfl, Or.inr rfl, ?_⟩
    rcases Bool.and_eq_false_iff.mp hb with hb | hb
    · have hd : d = 0 := by simpa using hb
      rw [hd, add_zero, Prod.mk.eta]
      exact hq
    · exact hb

/-- On the one-cell grid `[[Wall]]`, wall overlap is overlap with tile
`(0, 0)`. -/
theorem overlapsSomeWall_oneWall (p s : ℚ × ℚ) :
    overlapsSomeWall [[Wall]] p s =
      check_aabb_collision p s (tileCenterWorld 0 0) (TILE_SIZE, TILE_SIZE) := by
  show ((List.range 1).any fun gy =>
      (List.range (([[Wall]] : Grid).getD gy []).length).any fun gx =>
        decide (tileAtN [[Wall]] gx gy = Wall) &&
          check_aabb_collision p s (tileCenterWorld (gx : Int) (gy : Int))
            (TILE_SIZE, TILE_SIZE)) = _
  simp [tileAtN, show List.range 1 = [0] from rfl]

/-- On the grid `[[Floor, Wall]]`, wall overlap is overlap with tile
`(1, 0)`. -/
theorem overlapsSomeWall_floorWall (p s : ℚ × ℚ) :
    overlapsSomeWall [[Floor, Wall]] p s =
      check_aabb_collision p s (tileCenterWorld 1 0) (TILE_SIZE, TILE_SIZE) := by
  show ((List.range 1).any fun gy =>
      (List.range (([[Floor, Wall]] : Grid).getD gy []).length).any fun gx =>
        decide (tileAtN [[Floor, Wall]] gx gy = Wall) &&
          check_aabb_collision p s (tileCenterWorld (gx : Int) (gy : Int))
            (TILE_SIZE, TILE_SIZE)) = _
  rw [show List.range 1 = [0] from rfl]
  simp only [List.any_cons, List.any_nil]
  rw [show (([[Floor, Wall]] : Grid).getD 0 []).length = 2 from rfl]
  rw [show List.range 2 = [0, 1] from rfl]
  simp [tileAtN]

/-- `projectile_movement_system` per-projectile step (src/player.rs lines
297-332): test the single proposed next position against nearby walls; on any
overlap despawn (`none`, position untouched), else advance by the full
movement vector. -/
def projectileStep (g : Grid) (pos dir : ℚ × ℚ) (speed dt : ℚ) (size : ℚ × ℚ) :
    Option (ℚ × ℚ) :=
  if collidesAt g (pos.1 + dir.1 * speed * dt, pos.2 + dir.2 * speed * dt) size
  then none
  else some (pos.1 + dir.1 * speed * dt, pos.2 + dir.2 * speed * dt)

/-- `intRange a b` is empty when `b < a` (a Rust `for x in a..=b` with
`b < a` runs zero iterations). -/
theorem intRange_eq_nil {a b : Int} (h : b < a) : intRange a b = [] := by
  rw [intRange, show (b + 1 - a).toNat = 0 by omega]
  rfl

end Player


namespace Arena

/-- `NOISE_THRESHOLD` from src/arena.rs (`0.1_f64`, exact in `ℚ`). The
Perlin sample itself is the `noise` oracle argument below. -/
def NOISE_THRESHOLD : ℚ := 1 / 10

/-- `SMOOTHING_ITERATIONS` from src/arena.rs. -/
def SMOOTHING_ITERATIONS : Nat := 3

/-- `WALL_CONVERSION_THRESHOLD` from src/arena.rs. -/
def WALL_CONVERSION_THRESHOLD : Nat := 5

/-- `FLOOR_CONVERSION_THRESHOLD` from src/arena.rs. -/
def FLOOR_CONVERSION_THRESHOLD : Nat := 4

/-- The eight `(i, j)` offsets of the `for i in -1..=1 { for j in -1..=1 }`
loops of `count_wall_neighbors`, with `(0, 0)` skipped; `i` offsets x. -/
def neighborOffsets : List (Int × Int) :=
  [(-1, -1), (-1, 0), (-1, 1), (0, -1), (0, 1), (1, -1), (1, 0), (1, 1)]

/-- `check_x/check_y` of `count_wall_neighbors` land inside the grid. -/
def neighborInBounds (x y w h : Nat) (ij : Int × Int) : Prop :=
  0 ≤ (x : Int) + ij.1 ∧ (x : Int) + ij.1 < (w : Int) ∧
  0 ≤ (y : Int) + ij.2 ∧ (y : Int) + ij.2 < (h : Int)

instance (x y w h : Nat) (ij : Int × Int) : Decidable (neighborInBounds x y w h ij) := by
  unfold neighborInBounds
  infer_instance

/-- `count_wall_neighbors` from src/arena.rs: tally the 8 neighbors, counting
an in-bounds Wall as 1 and any out-of-bounds neighbor as 1. -/
def count_wall_neighbors (g : Grid) (x y w h : Nat) : Nat :=
  neighborOffsets.foldl
    (fun count ij =>
      if neighborInBounds x y w h ij then
        (if tileAt g ((x : Int) + ij.1) ((y : Int) + ij.2) = Wall then count + 1 else count)
      else count + 1)
    0

/-- One smoothing pass of `ArenaGrid::new` (src/arena.rs lines 56-74): every
interior cell is reclassified from the previous grid by its wall-neighbor
tally; border cells keep their value (the pass writes into a clone). -/
def smoothStep (w h : Nat) (g : Grid) : Grid :=
  genGrid w h fun x y =>
    if 1 ≤ x ∧ x < w - 1 ∧ 1 ≤ y ∧ y < h - 1 then
      (if tileAtN g x y = Wall then
        (if count_wall_neighbors g x y w h < FLOOR_CONVERSION_THRESHOLD then Floor else Wall)
       else
        (if WALL_CONVERSION_THRESHOLD ≤ count_wall_neighbors g x y w h then Wall else Floor))
    else tileAtN g x y

/-- The border-sealing loops of `ArenaGrid::new` (src/arena.rs lines 76-83). -/
def sealBorder (w h : Nat) (g : Grid) : Grid :=
  genGrid w h fun x y =>
    if x = 0 ∨ x = w - 1 ∨ y = 0 ∨ y = h - 1 then Wall else tileAtN g x y

/-- Cell `(x, y)` is written by the spawn-clearing loops of `ArenaGrid::new`
(src/arena.rs lines 85-97): it is `(center + offset)` for some offsets in
`-1..=1` and the bounds guard passes. The loops run twice (`for _r in 0..=1`)
with identical effect, and a negative `center + offset` wraps to a huge
`usize` that always fails the `< width - 1` guard, so the integer guard below
is exact. -/
def clearSpawnCond (w h x y : Nat) : Bool :=
  (intRange (-1) 1).any fun c =>
    (intRange (-1) 1).any fun r =>
      decide ((x : Int) = ((w / 2 : Nat) : Int) + c) &&
      decide ((y : Int) = ((h / 2 : Nat) : Int) + r) &&
      decide (0 < x) && decide (x < w - 1) && decide (0 < y) && decide (y < h - 1)

/-- The spawn-clearing pass of `ArenaGrid::new`. -/
def clearSpawn (w h : Nat) (g : Grid) : Grid :=
  genGrid w h fun x y => if clearSpawnCond w h x y then Floor else tileAtN g x y

/-- `ArenaGrid::new` from src/arena.rs: noise classification (the Perlin
sample at a cell is the oracle `noise x y`), three smoothing passes, border
sealing, spawn clearing. -/
def arenaGridNew (noise : Nat → Nat → ℚ) (w h : Nat) : Grid :=
  clearSpawn w h (sealBorder w h
    ((smoothStep w h)^[SMOOTHING_ITERATIONS]
      (genGrid w h fun x y => if noise x y > NOISE_THRESHOLD then Wall else Floor)))

/-- A cell the spawn-clearing pass writes is strictly interior. -/
theorem clearSpawnCond_interior {w h x y : Nat} (hc : clearSpawnCond w h x y = true) :
    0 < x ∧ x < w - 1 ∧ 0 < y ∧ y < h - 1 := by
  rw [clearSpawnCond, List.any_eq_true] at hc
  obtain ⟨c, -, hc⟩ := hc
  rw [List.any_eq_true] at hc
  obtain ⟨r, -, hc⟩ := hc
  simp only [Bool.and_eq_true, decide_eq_true_iff] at hc
  exact ⟨hc.1.1.1.2, hc.1.1.2, hc.1.2, hc.2⟩

/-- The spawn-clearing pass writes every cell of the 3 × 3 block around the
grid center, for grids of side at least 5. -/
theorem clearSpawnCond_center {w h x y : Nat} (hw : 5 ≤ w) (hh : 5 ≤ h)
    (hx1 : w / 2 - 1 ≤ x) (hx2 : x ≤ w / 2 + 1)
    (hy1 : h / 2 - 1 ≤ y) (hy2 : y ≤ h / 2 + 1) :
    clearSpawnCond w h x y = true := by
  rw [clearSpawnCond, List.any_eq_true]
  refine ⟨(x : Int) - ((w / 2 : Nat) : Int), mem_intRange.mpr (by omega), ?_⟩
  rw [List.any_eq_true]
  refine ⟨(y : Int) - ((h / 2 : Nat) : Int), mem_intRange.mpr (by omega), ?_⟩
  simp only [Bool.and_eq_true, decide_eq_true_iff]
  exact ⟨⟨⟨⟨⟨by omega, by omega⟩, by omega⟩, by omega⟩, by omega⟩, by omega⟩

/-- Border ring of the cave grid is Wall. -/
theorem arena_border_wall (noise : Nat → Nat → ℚ) {w h x y : Nat}
    (hx : x < w) (hy : y < h)
    (hb : x = 0 ∨ x = w - 1 ∨ y = 0 ∨ y = h - 1) :
    tileAtN (arenaGridNew noise w h) x y = Wall := by
  rw [arenaGridNew, clearSpawn, tileAtN_genGrid _ _ _ hx hy]
  rw [if_neg ?hcond]
  case hcond =>
    intro hc
    have := clearSpawnCond_interior hc
    omega
  rw [sealBorder, tileAtN_genGrid _ _ _ hx hy, if_pos hb]

/-- The 3 × 3 block around the cave grid center is Floor. -/
theorem arena_center_floor (noise : Nat → Nat → ℚ) {w h x y : Nat}
    (hw : 5 ≤ w) (hh : 5 ≤ h)
    (hx1 : w / 2 - 1 ≤ x) (hx2 : x ≤ w / 2 + 1)
    (hy1 : h / 2 - 1 ≤ y) (hy2 : y ≤ h / 2 + 1) :
    tileAtN (arenaGridNew noise w h) x y = Floor := by
  have hx : x < w := by omega
  have hy : y < h := by omega
  rw [arenaGridNew, clearSpawn, tileAtN_genGrid _ _ _ hx hy]
  rw [if_pos (clearSpawnCond_center hw hh hx1 hx2 hy1 hy2)]

end Arena


namespace ArenaRooms

/-- `ROOM_PADDING_TILES` from src/arena_rooms.rs. -/
def ROOM_PADDING_TILES : Nat := 3

/-- `MIN_ROOM_SIZE_TILES` from src/arena_rooms.rs. -/
def MIN_ROOM_SIZE_TILES : Nat := 8

/-- `room_width = max_room_width.max(MIN_ROOM_SIZE_TILES)`. -/
def roomWidth (w : Nat) : Nat := max (w - 2 * ROOM_PADDING_TILES) MIN_ROOM_SIZE_TILES

/-- `room_height = max_room_height.max(MIN_ROOM_SIZE_TILES)`. -/
def roomHeight (h : Nat) : Nat := max (h - 2 * ROOM_PADDING_TILES) MIN_ROOM_SIZE_TILES

/-- `room_start_x = (width - room_width) / 2`. -/
def roomStartX (w : Nat) : Nat := (w - roomWidth w) / 2

/-- `room_start_y = (height - room_height) / 2`. -/
def roomStartY (h : Nat) : Nat := (h - roomHeight h) / 2

/-- `room_end_x = room_start_x + room_width`. -/
def roomEndX (w : Nat) : Nat := roomStartX w + roomWidth w

/-- `room_end_y = room_start_y + room_height`. -/
def roomEndY (h : Nat) : Nat := roomStartY h + roomHeight h

/-- `room_center_x = room_start_x + room_width / 2`. -/
def roomCenterX (w : Nat) : Nat := roomStartX w + roomWidth w / 2

/-- `room_center_y = room_start_y + room_height / 2`. -/
def roomCenterY (h : Nat) : Nat := roomStartY h + roomHeight h / 2

/-- The first pass of `ArenaGrid::new` (src/arena_rooms.rs lines 55-71):
everything outside the centered room is Wall, the room ring is Wall, the
room interior is Floor. -/
def baseGrid (w h sx sy ex ey : Nat) : Grid :=
  genGrid w h fun x y =>
    if sx ≤ x ∧ x < ex ∧ sy ≤ y ∧ y < ey then
      (if x = sx ∨ x = ex - 1 ∨ y = sy ∨ y = ey - 1 then Wall else Floor)
    else Wall

/-- The obstacle-footprint loops (src/arena_rooms.rs lines 79-87): mark the
`ow × oh` rectangle anchored at `(x, y)` Wall, clipped by the
`current < room_end - 1` guards. -/
def placeObstacle (ex ey x y ow oh : Nat) (g : Grid) : Grid :=
  ((natRange 0 oh).flatMap fun oy => (natRange 0 ow).map fun ox => (oy, ox)).foldl
    (fun g p =>
      if x + p.2 < ex - 1 ∧ y + p.1 < ey - 1 then setTile g (x + p.2) (y + p.1) Wall
      else g)
    g

/-- The obstacle-scattering pass (src/arena_rooms.rs lines 73-90), iterating
the room interior row-major; the dice rolls are the `oracle`: `oracle x y =
some (ow, oh)` when `random_bool` fires with those obstacle dimensions. -/
def obstaclePass (oracle : Nat → Nat → Option (Nat × Nat)) (sx sy ex ey : Nat)
    (g : Grid) : Grid :=
  ((natRange (sy + 1) (ey - 1)).flatMap fun y =>
    (natRange (sx + 1) (ex - 1)).map fun x => (y, x)).foldl
    (fun g p =>
      if tileAtN g p.2 p.1 = Floor then
        (match oracle p.2 p.1 with
         | some s => placeObstacle ex ey p.2 p.1 s.1 s.2 g
         | none => g)
      else g)
    g

/-- Cell `(x, y)` is written by the 3 × 3 spawn-clearing loops
(src/arena_rooms.rs lines 95-108). -/
def clearCondRooms (sx sy ex ey rcx rcy x y : Nat) : Bool :=
  (intRange (-1) 1).any fun r =>
    (intRange (-1) 1).any fun c =>
      decide ((y : Int) = (rcy : Int) + r) && decide ((x : Int) = (rcx : Int) + c) &&
      decide ((rcy : Int) + r > (sy : Int)) &&
      decide ((rcy : Int) + r < ((ey - 1 : Nat) : Int)) &&
      decide ((rcx : Int) + c > (sx : Int)) &&
      decide ((rcx : Int) + c < ((ex - 1 : Nat) : Int))

/-- The 3 × 3 spawn-clearing pass. -/
def clearSpawnRooms (w h sx sy ex ey rcx rcy : Nat) (g : Grid) : Grid :=
  genGrid w h fun x y =>
    if clearCondRooms sx sy ex ey rcx rcy x y then Floor else tileAtN g x y

/-- The final guarded center write (src/arena_rooms.rs lines 109-115). -/
def clearCenter (w h sx sy ex ey rcx rcy : Nat) (g : Grid) : Grid :=
  genGrid w h fun x y =>
    if x = rcx ∧ y = rcy ∧ sx < rcx ∧ rcx < ex - 1 ∧ sy < rcy ∧ rcy < ey - 1 then Floor
    else tileAtN g x y

/-- The `usize` subtractions of `ArenaGrid::new` do not underflow: both
`width - 2 * ROOM_PADDING_TILES` / `height - ...` (line 44/45) and
`(width - room_width) / 2` / `(height - room_height) / 2` (line 50/51) are
in range. When this is false the Rust code panics (checked subtraction in
debug builds; in release the wrapped huge `room_start` makes the obstacle
loops index out of bounds). -/
def roomParamsOk (w h : Nat) : Bool :=
  decide (2 * ROOM_PADDING_TILES ≤ w) && decide (2 * ROOM_PADDING_TILES ≤ h) &&
  decide (roomWidth w ≤ w) && decide (roomHeight h ≤ h)

/-- The grid built by `ArenaGrid::new` on the non-panicking path. -/
def buildGrid (w h : Nat) (oracle : Nat → Nat → Option (Nat × Nat)) : Grid :=
  clearCenter w h (roomStartX w) (roomStartY h) (roomEndX w) (roomEndY h)
    (roomCenterX w) (roomCenterY h)
    (clearSpawnRooms w h (roomStartX w) (roomStartY h) (roomEndX w) (roomEndY h)
      (roomCenterX w) (roomCenterY h)
      (obstaclePass oracle (roomStartX w) (roomStartY h) (roomEndX w) (roomEndY h)
        (baseGrid w h (roomStartX w) (roomStartY h) (roomEndX w) (roomEndY h))))

/-- `ArenaGrid::new` from src/arena_rooms.rs; `none` models the `usize`
underflow panic on degenerate dimensions. -/
def arenaGridNew (w h : Nat) (oracle : Nat → Nat → Option (Nat × Nat)) : Option Grid :=
  if roomParamsOk w h then some (buildGrid w h oracle) else none

/-- The non-panicking dimensions are exactly those at least `8 × 8`. -/
theorem roomParamsOk_iff (w h : Nat) :
    roomParamsOk w h = true ↔ MIN_ROOM_SIZE_TILES ≤ w ∧ MIN_ROOM_SIZE_TILES ≤ h := by
  rw [roomParamsOk]
  simp only [Bool.and_eq_true, decide_eq_true_iff]
  constructor
  · rintro ⟨⟨⟨-, -⟩, hw⟩, hh⟩
    exact ⟨le_trans (le_max_right _ _) hw, le_trans (le_max_right _ _) hh⟩
  · rintro ⟨hw, hh⟩
    rw [MIN_ROOM_SIZE_TILES] at hw hh
    refine ⟨⟨⟨?_, ?_⟩, ?_⟩, ?_⟩
    · rw [ROOM_PADDING_TILES]
      omega
    · rw [ROOM_PADDING_TILES]
      omega
    · rw [roomWidth, ROOM_PADDING_TILES, MIN_ROOM_SIZE_TILES]
      rcases Nat.le_total (w - 2 * 3) 8 with hle | hle
      · rw [Nat.max_eq_right hle]
        omega
      · rw [Nat.max_eq_left hle]
        omega
    · rw [roomHeight, ROOM_PADDING_TILES, MIN_ROOM_SIZE_TILES]
      rcases Nat.le_total (h - 2 * 3) 8 with hle | hle
      · rw [Nat.max_eq_right hle]
        omega
      · rw [Nat.max_eq_left hle]
        omega

theorem roomWidth_ge (w : Nat) : MIN_ROOM_SIZE_TILES ≤ roomWidth w := le_max_right _ _

theorem roomHeight_ge (h : Nat) : MIN_ROOM_SIZE_TILES ≤ roomHeight h := le_max_right _ _

theorem roomEndX_le (w : Nat) (hw : roomWidth w ≤ w) : roomEndX w ≤ w := by
  rw [roomEndX, roomStartX]
  omega

theorem roomEndY_le (h : Nat) (hh : roomHeight h ≤ h) : roomEndY h ≤ h := by
  rw [roomEndY, roomStartY]
  omega

/-- The room center coincides with the grid center (on non-panicking
dimensions). -/
theorem roomCenterX_eq (w : Nat) (hw : MIN_ROOM_SIZE_TILES ≤ w) :
    roomCenterX w = w / 2 := by
  rw [roomCenterX, roomStartX, roomWidth, ROOM_PADDING_TILES, MIN_ROOM_SIZE_TILES]
  rw [MIN_ROOM_SIZE_TILES] at hw
  rcases Nat.le_total (w - 2 * 3) 8 with hle | hle
  · rw [Nat.max_eq_right hle]
    omega
  · rw [Nat.max_eq_left hle]
    omega

theorem roomCenterY_eq (h : Nat) (hh : MIN_ROOM_SIZE_TILES ≤ h) :
    roomCenterY h = h / 2 := by
  rw [roomCenterY, roomStartY, roomHeight, ROOM_PADDING_TILES, MIN_ROOM_SIZE_TILES]
  rw [MIN_ROOM_SIZE_TILES] at hh
  rcases Nat.le_total (h - 2 * 3) 8 with hle | hle
  · rw [Nat.max_eq_right hle]
    omega
  · rw [Nat.max_eq_left hle]
    omega

/-- A fold whose every step preserves Wall cells preserves Wall cells. -/
theorem foldl_preserves_wall {α : Type} (step : Grid → α → Grid)
    (hstep : ∀ g a x y, tileAtN g x y = Wall → tileAtN (step g a) x y = Wall) :
    ∀ (l : List α) (g : Grid) (x y : Nat),
      tileAtN g x y = Wall → tileAtN (l.foldl step g) x y = Wall := by
  intro l
  induction l with
  | nil => intro g x y hw; exact hw
  | cons hd tl ih =>
    intro g x y hw
    rw [List.foldl_cons]
    exact ih (step g hd) x y (hstep g hd x y hw)

/-- `placeObstacle` only writes Wall, so it preserves Wall cells. -/
theorem placeObstacle_preserves_wall (ex ey x y ow oh : Nat) (g : Grid)
    (a b : Nat) (hw : tileAtN g a b = Wall) :
    tileAtN (placeObstacle ex ey x y ow oh g) a b = Wall := by
  rw [placeObstacle]
  apply foldl_preserves_wall
  · intro g p a b hw
    by_cases hcond : x + p.2 < ex - 1 ∧ y + p.1 < ey - 1
    · rw [if_pos hcond]
      rcases tileAtN_setTile g (x + p.2) (y + p.1) Wall a b with h | h
      · exact h
      · rw [h]
        exact hw
    · rw [if_neg hcond]
      exact hw
  · exact hw

/-- `obstaclePass` only writes Wall, so it preserves Wall cells. -/
theorem obstaclePass_preserves_wall (oracle : Nat → Nat → Option (Nat × Nat))
    (sx sy ex ey : Nat) (g : Grid) (a b : Nat) (hw : tileAtN g a b = Wall) :
    tileAtN (obstaclePass oracle sx sy ex ey g) a b = Wall := by
  rw [obstaclePass]
  apply foldl_preserves_wall
  · intro g p a b hw
    by_cases hfloor : tileAtN g p.2 p.1 = Floor
    · rw [if_pos hfloor]
      cases horacle : oracle p.2 p.1 with
      | some s => exact placeObstacle_preserves_wall ex ey p.2 p.1 s.1 s.2 g a b hw
      | none => exact hw
    · rw [if_neg hfloor]
      exact hw
  · exact hw

/-- A cell the rooms spawn-clearing writes is strictly inside the room. -/
theorem clearCondRooms_interior {sx sy ex ey rcx rcy x y : Nat}
    (hc : clearCondRooms sx sy ex ey rcx rcy x y = true) :
    sx < x ∧ (x : Int) < ((ex - 1 : Nat) : Int) ∧ sy < y ∧ (y : Int) < ((ey - 1 : Nat) : Int) := by
  rw [clearCondRooms, List.any_eq_true] at hc
  obtain ⟨r, -, hc⟩ := hc
  rw [List.any_eq_true] at hc
  obtain ⟨c, -, hc⟩ := hc
  simp only [Bool.and_eq_true, decide_eq_true_iff] at hc
  obtain ⟨⟨⟨⟨⟨hy, hx⟩, h1⟩, h2⟩, h3⟩, h4⟩ := hc
  constructor
  · omega
  · constructor
    · omega
    · constructor
      · omega
      · omega

theorem roomWidth_le (w : Nat) (hw : MIN_ROOM_SIZE_TILES ≤ w) : roomWidth w ≤ w := by
  rw [roomWidth, ROOM_PADDING_TILES, MIN_ROOM_SIZE_TILES]
  rw [MIN_ROOM_SIZE_TILES] at hw
  rcases Nat.le_total (w - 2 * 3) 8 with hle | hle
  · rw [Nat.max_eq_right hle]
    omega
  · rw [Nat.max_eq_left hle]
    omega

theorem roomHeight_le (h : Nat) (hh : MIN_ROOM_SIZE_TILES ≤ h) : roomHeight h ≤ h := by
  rw [roomHeight, ROOM_PADDING_TILES, MIN_ROOM_SIZE_TILES]
  rw [MIN_ROOM_SIZE_TILES] at hh
  rcases Nat.le_total (h - 2 * 3) 8 with hle | hle
  · rw [Nat.max_eq_right hle]
    omega
  · rw [Nat.max_eq_left hle]
    omega

/-- Border ring of the room grid is Wall (on non-panicking dimensions). -/
theorem rooms_border_wall (w h : Nat) (oracle : Nat → Nat → Option (Nat × Nat))
    (hok : roomParamsOk w h = true) {x y : Nat} (hx : x < w) (hy : y < h)
    (hb : x = 0 ∨ x = w - 1 ∨ y = 0 ∨ y = h - 1) :
    tileAtN (buildGrid w h oracle) x y = Wall := by
  obtain ⟨h8w, h8h⟩ := (roomParamsOk_iff w h).mp hok
  have hex : roomEndX w ≤ w := roomEndX_le w (roomWidth_le w h8w)
  have hey : roomEndY h ≤ h := roomEndY_le h (roomHeight_le h h8h)
  have hrw : MIN_ROOM_SIZE_TILES ≤ roomWidth w := roomWidth_ge w
  have hrh : MIN_ROOM_SIZE_TILES ≤ roomHeight h := roomHeight_ge h
  rw [MIN_ROOM_SIZE_TILES] at h8w h8h hrw hrh
  have hexs : roomEndX w = roomStartX w + roomWidth w := rfl
  have heys : roomEndY h = roomStartY h + roomHeight h := rfl
  have hcxs : roomCenterX w = roomStartX w + roomWidth w / 2 := rfl
  have hcys : roomCenterY h = roomStartY h + roomHeight h / 2 := rfl
  rw [buildGrid, clearCenter, tileAtN_genGrid _ _ _ hx hy]
  rw [if_neg ?hc1]
  case hc1 =>
    rintro ⟨rfl, rfl, hs1, hs2, hs3, hs4⟩
    omega
  rw [clearSpawnRooms, tileAtN_genGrid _ _ _ hx hy]
  rw [if_neg ?hc2]
  case hc2 =>
    intro hc
    have hint := clearCondRooms_interior hc
    omega
  apply obstaclePass_preserves_wall
  rw [baseGrid, tileAtN_genGrid _ _ _ hx hy]
  by_cases hin : roomStartX w ≤ x ∧ x < roomEndX w ∧ roomStartY h ≤ y ∧ y < roomEndY h
  · rw [if_pos hin, if_pos ?hring]
    case hring => omega
  · rw [if_neg hin]

/-- The 3 × 3 block around the grid center of the room grid is Floor (on
non-panicking dimensions). -/
theorem rooms_center_floor (w h : Nat) (oracle : Nat → Nat → Option (Nat × Nat))
    (hok : roomParamsOk w h = true) {x y : Nat}
    (hx1 : w / 2 - 1 ≤ x) (hx2 : x ≤ w / 2 + 1)
    (hy1 : h / 2 - 1 ≤ y) (hy2 : y ≤ h / 2 + 1) :
    tileAtN (buildGrid w h oracle) x y = Floor := by
  obtain ⟨h8w, h8h⟩ := (roomParamsOk_iff w h).mp hok
  have hrw : MIN_ROOM_SIZE_TILES ≤ roomWidth w := roomWidth_ge w
  have hrh : MIN_ROOM_SIZE_TILES ≤ roomHeight h := roomHeight_ge h
  have hcx : roomCenterX w = w / 2 := roomCenterX_eq w h8w
  have hcy : roomCenterY h = h / 2 := roomCenterY_eq h h8h
  rw [MIN_ROOM_SIZE_TILES] at h8w h8h hrw hrh
  have hexs : roomEndX w = roomStartX w + roomWidth w := rfl
  have heys : roomEndY h = roomStartY h + roomHeight h := rfl
  have hcxs : roomCenterX w = roomStartX w + roomWidth w / 2 := rfl
  have hcys : roomCenterY h = roomStartY h + roomHeight h / 2 := rfl
  have hx : x < w := by omega
  have hy : y < h := by omega
  rw [buildGrid, clearCenter, tileAtN_genGrid _ _ _ hx hy]
  by_cases hcc : x = roomCenterX w ∧ y = roomCenterY h ∧
      roomStartX w < roomCenterX w ∧ roomCenterX w < roomEndX w - 1 ∧
      roomStartY h < roomCenterY h ∧ roomCenterY h < roomEndY h - 1
  · rw [if_pos hcc]
  · rw [if_neg hcc]
    rw [clearSpawnRooms, tileAtN_genGrid _ _ _ hx hy]
    rw [if_pos ?hcond]
    case hcond =>
      rw [clearCondRooms, List.any_eq_true]
      refine ⟨(y : Int) - (roomCenterY h : Int), mem_intRange.mpr (by omega), ?_⟩
      rw [List.any_eq_true]
      refine ⟨(x : Int) - (roomCenterX w : Int), mem_intRange.mpr (by omega), ?_⟩
      simp only [Bool.and_eq_true, decide_eq_true_iff]
      refine ⟨⟨⟨⟨⟨by omega, by omega⟩, by omega⟩, ?_⟩, by omega⟩, ?_⟩
      · omega
      · omega

end ArenaRooms


/-- The `ArenaGrid` resource struct (src/arena.rs lines 32-37). -/
structure ArenaGrid where
  grid : Grid
  width : Nat
  height : Nat

namespace Enemy

/-- `MAX_ENEMIES_SPAWN` from src/enemy.rs. -/
def MAX_ENEMIES_SPAWN : Nat := 10

/-- The `floor_tiles` list collected by `spawn_enemies` (src/enemy.rs lines
67-88): Floor cells more than one cell from every border whose squared tile
distance to the grid center cell exceeds 25. -/
def floorTiles (a : ArenaGrid) : List (Nat × Nat) :=
  (List.range a.grid.length).flatMap fun y =>
    (List.range ((a.grid.getD y []).length)).filterMap fun x =>
      if tileAtN a.grid x y = Floor ∧ 1 < x ∧ x < a.width - 2 ∧ 1 < y ∧ y < a.height - 2 ∧
          25 < ((x : Int) - ((a.width / 2 : Nat) : Int)) ^ 2 +
               ((y : Int) - ((a.height / 2 : Nat) : Int)) ^ 2
      then some (x, y) else none

/-- `spawn_enemies` (src/enemy.rs lines 65-116): with no eligible tile it
warns and spawns nothing; otherwise it runs `MAX_ENEMIES_SPAWN` iterations,
each picking the eligible tile indexed by the next random draw (`picks`) and
spawning an enemy at that tile world center. Returns the spawn positions. -/
def spawn_enemies (a : ArenaGrid) (picks : List Nat) : List (ℚ × ℚ) :=
  if (floorTiles a).isEmpty then []
  else picks.filterMap fun i =>
    ((floorTiles a)[i]?).map fun c => Player.tileCenterWorld (c.1 : Int) (c.2 : Int)

/-- Membership in `floorTiles` carries all the eligibility conditions. -/
theorem mem_floorTiles {a : ArenaGrid} {c : Nat × Nat} (hc : c ∈ floorTiles a) :
    tileAtN a.grid c.1 c.2 = Floor ∧ 1 < c.1 ∧ c.1 < a.width - 2 ∧
    1 < c.2 ∧ c.2 < a.height - 2 ∧
    25 < ((c.1 : Int) - ((a.width / 2 : Nat) : Int)) ^ 2 +
         ((c.2 : Int) - ((a.height / 2 : Nat) : Int)) ^ 2 := by
  rw [floorTiles, List.mem_flatMap] at hc
  obtain ⟨y, -, hc⟩ := hc
  rw [List.mem_filterMap] at hc
  obtain ⟨x, -, hif⟩ := hc
  by_cases hcond : tileAtN a.grid x y = Floor ∧ 1 < x ∧ x < a.width - 2 ∧
      1 < y ∧ y < a.height - 2 ∧
      25 < ((x : Int) - ((a.width / 2 : Nat) : Int)) ^ 2 +
           ((y : Int) - ((a.height / 2 : Nat) : Int)) ^ 2
  · rw [if_pos hcond, Option.some_inj] at hif
    rw [← hif]
    exact hcond
  · rw [if_neg hcond] at hif
    exact absurd hif (Option.some_ne_none _).symm

end Enemy

/-- C1: for every position, size and proposed displacement, the accepted
displacement is component-wise the requested one or zero, and — provided the
body starts clear of every Wall tile, the amendment the counterexample
forces — the body also ends clear of every Wall tile. Stated for grids that
fit the 86 × 49 arena, as the published grid does. -/
theorem c1_resolve_componentwise_no_overlap (g : Grid) (pos size mv : ℚ × ℚ)
    (hfit : Player.fitsArena g)
    (hstart : Player.overlapsSomeWall g pos size = false) :
    ((Player.resolveMove g pos size mv).1 = pos.1 ∨
      (Player.resolveMove g pos size mv).1 = pos.1 + mv.1) ∧
    ((Player.resolveMove g pos size mv).2 = pos.2 ∨
      (Player.resolveMove g pos size mv).2 = pos.2 + mv.2) ∧
    Player.overlapsSomeWall g (Player.resolveMove g pos size mv) size = false := by
  rw [Player.resolveMove_eq]
  obtain ⟨hx1, hx2, hx3⟩ := Player.xStep_spec hfit pos size mv hstart
  obtain ⟨hy1, hy2, hy3⟩ :=
    Player.yPhase_spec hfit (Player.xStep g pos size mv) size mv.2 hx3
  refine ⟨?_, ?_, hy3⟩
  · rw [hy1]
    exact hx1
  · rcases hy2 with h | h
    · rw [h, hx2]
      exact Or.inl rfl
    · rw [h, hx2]
      exact Or.inr rfl

/-- C1, counterexample to the unamended claim: a body whose box already
overlaps a Wall tile (here: sitting at the center of the only wall of
`[[Wall]]`) still overlaps it after resolution, because the rejected X move
and the untested zero Y move leave the position unchanged. -/
theorem c1_counterexample :
    ¬ (((Player.resolveMove [[Wall]] (Player.tileCenterWorld 0 0) (10, 10) (1, 0)).1 =
          (Player.tileCenterWorld 0 0).1 ∨
        (Player.resolveMove [[Wall]] (Player.tileCenterWorld 0 0) (10, 10) (1, 0)).1 =
          (Player.tileCenterWorld 0 0).1 + 1) ∧
       ((Player.resolveMove [[Wall]] (Player.tileCenterWorld 0 0) (10, 10) (1, 0)).2 =
          (Player.tileCenterWorld 0 0).2 ∨
        (Player.resolveMove [[Wall]] (Player.tileCenterWorld 0 0) (10, 10) (1, 0)).2 =
          (Player.tileCenterWorld 0 0).2 + 0) ∧
       Player.overlapsSomeWall [[Wall]]
         (Player.resolveMove [[Wall]] (Player.tileCenterWorld 0 0) (10, 10) (1, 0))
         (10, 10) = false) := by
  have hfit : Player.fitsArena [[Wall]] := by
    constructor
    · decide
    · decide
  have hself : ∀ q : ℚ × ℚ, q.2 = (Player.tileCenterWorld 0 0).2 →
      q.1 - 10 / 2 < (Player.tileCenterWorld 0 0).1 + Arena.TILE_SIZE / 2 →
      q.1 + 10 / 2 > (Player.tileCenterWorld 0 0).1 - Arena.TILE_SIZE / 2 →
      Player.overlapsSomeWall [[Wall]] q (10, 10) = true := by
    intro q hq h1 h2
    rw [Player.overlapsSomeWall_oneWall, Player.check_aabb_collision_eq_true]
    refine ⟨⟨h1, h2⟩, ?_⟩
    rw [hq]
    constructor
    · norm_num [Arena.TILE_SIZE]
      linarith
    · norm_num [Arena.TILE_SIZE]
      linarith
  have hx : Player.xStep [[Wall]] (Player.tileCenterWorld 0 0) (10, 10) (1, 0) =
      Player.tileCenterWorld 0 0 := by
    rw [Player.xStep, Player.collidesAt_eq_overlapsSomeWall hfit]
    rw [hself ((Player.tileCenterWorld 0 0).1 + 1, (Player.tileCenterWorld 0 0).2)
      rfl (by norm_num [Arena.TILE_SIZE]; linarith) (by norm_num [Arena.TILE_SIZE]; linarith)]
    rw [if_pos (by norm_num)]
  intro h
  rcases h with ⟨-, -, hno⟩
  rw [Player.resolveMove_eq, hx] at hno
  rw [show (decide ((0 : ℚ) ≠ 0) &&
      Player.collidesAt [[Wall]]
        ((Player.tileCenterWorld 0 0).1, (Player.tileCenterWorld 0 0).2 + 0)
        (10, 10)) = false by simp] at hno
  rw [if_neg (by simp)] at hno
  rw [hself ((Player.tileCenterWorld 0 0).1, (Player.tileCenterWorld 0 0).2 + 0)
    (by rw [add_zero]) (by norm_num [Arena.TILE_SIZE]; linarith)
    (by norm_num [Arena.TILE_SIZE]; linarith)] at hno
  exact absurd hno (by simp)

/-- C1, witness for the amended theorem: a body one tile clear of the single
wall of `[[Wall]]` keeps the guarantee for the move `(1, 0)`. -/
theorem c1_witness :
    ((Player.resolveMove [[Wall]]
        ((Player.tileCenterWorld 0 0).1 + 20, (Player.tileCenterWorld 0 0).2)
        (10, 10) (1, 0)).1 =
      (Player.tileCenterWorld 0 0).1 + 20 ∨
     (Player.resolveMove [[Wall]]
        ((Player.tileCenterWorld 0 0).1 + 20, (Player.tileCenterWorld 0 0).2)
        (10, 10) (1, 0)).1 =
      (Player.tileCenterWorld 0 0).1 + 20 + 1) ∧
    ((Player.resolveMove [[Wall]]
        ((Player.tileCenterWorld 0 0).1 + 20, (Player.tileCenterWorld 0 0).2)
        (10, 10) (1, 0)).2 =
      (Player.tileCenterWorld 0 0).2 ∨
     (Player.resolveMove [[Wall]]
        ((Player.tileCenterWorld 0 0).1 + 20, (Player.tileCenterWorld 0 0).2)
        (10, 10) (1, 0)).2 =
      (Player.tileCenterWorld 0 0).2 + 0) ∧
    Player.overlapsSomeWall [[Wall]]
      (Player.resolveMove [[Wall]]
        ((Player.tileCenterWorld 0 0).1 + 20, (Player.tileCenterWorld 0 0).2)
        (10, 10) (1, 0))
      (10, 10) = false := by
  have hstart : Player.overlapsSomeWall [[Wall]]
      ((Player.tileCenterWorld 0 0).1 + 20, (Player.tileCenterWorld 0 0).2)
      (10, 10) = false := by
    rw [Player.overlapsSomeWall_oneWall]
    rw [Bool.eq_false_iff]
    intro hc
    rw [Player.check_aabb_collision_eq_true] at hc
    have := hc.1.1
    norm_num [Arena.TILE_SIZE] at this
    linarith
  exact c1_resolve_componentwise_no_overlap [[Wall]]
    ((Player.tileCenterWorld 0 0).1 + 20, (Player.tileCenterWorld 0 0).2)
    (10, 10) (1, 0) (by constructor <;> decide) hstart

/-- C4: a diagonal move blocked on X (some wall overlaps the X-candidate
position) but free on Y (no wall overlaps the Y-candidate reached with
unchanged x) resolves to zero X displacement and the full Y displacement. -/
theorem c4_wall_slide (g : Grid) (pos size mv : ℚ × ℚ)
    (hfit : Player.fitsArena g) (hmx : mv.1 ≠ 0) (_hmy : mv.2 ≠ 0)
    (hblocked : Player.overlapsSomeWall g (pos.1 + mv.1, pos.2) size = true)
    (hfree : Player.overlapsSomeWall g (pos.1, pos.2 + mv.2) size = false) :
    Player.resolveMove g pos size mv = (pos.1, pos.2 + mv.2) := by
  have hx : Player.xStep g pos size mv = pos := by
    rw [Player.xStep, Player.collidesAt_eq_overlapsSomeWall hfit, hblocked]
    rw [if_pos (by simp [hmx])]
  rw [Player.resolveMove_eq, hx, Player.collidesAt_eq_overlapsSomeWall hfit, hfree]
  simp

/-- C4, witness: on `[[Floor, Wall]]`, a body at the floor tile center moving
`(5, 5)` is blocked on X by the wall tile but slides the full `5` in Y. -/
theorem c4_witness :
    Player.resolveMove [[Floor, Wall]] (Player.tileCenterWorld 0 0) (10, 10) (5, 5) =
      ((Player.tileCenterWorld 0 0).1, (Player.tileCenterWorld 0 0).2 + 5) := by
  apply c4_wall_slide
  · constructor <;> decide
  · norm_num
  · norm_num
  · rw [Player.overlapsSomeWall_floorWall, Player.check_aabb_collision_eq_true]
    norm_num [Player.tileCenterWorld, Player.arenaOffsetX, Player.arenaOffsetY,
      Arena.TILE_SIZE, Arena.ARENA_WIDTH_TILES, Arena.ARENA_HEIGHT_TILES]
  · rw [Player.overlapsSomeWall_floorWall]
    rw [Bool.eq_false_iff]
    intro hc
    rw [Player.check_aabb_collision_eq_true] at hc
    have := hc.1.2
    norm_num [Player.tileCenterWorld, Player.arenaOffsetX, Player.arenaOffsetY,
      Arena.TILE_SIZE, Arena.ARENA_WIDTH_TILES, Arena.ARENA_HEIGHT_TILES] at this

/-- C5: the AABB test reports collision iff, for positive sizes, the two
boxes overlap with positive area on both axes (their open coordinate
intervals share a point on each axis); two unit boxes sharing exactly one
edge report no collision. -/
theorem c5_aabb_open_overlap :
    (∀ p1 s1 p2 s2 : ℚ × ℚ, 0 < s1.1 → 0 < s1.2 → 0 < s2.1 → 0 < s2.2 →
      (Player.check_aabb_collision p1 s1 p2 s2 = true ↔
        ((∃ q : ℚ, p1.1 - s1.1 / 2 < q ∧ q < p1.1 + s1.1 / 2 ∧
                   p2.1 - s2.1 / 2 < q ∧ q < p2.1 + s2.1 / 2) ∧
         (∃ q : ℚ, p1.2 - s1.2 / 2 < q ∧ q < p1.2 + s1.2 / 2 ∧
                   p2.2 - s2.2 / 2 < q ∧ q < p2.2 + s2.2 / 2)))) ∧
    Player.check_aabb_collision (0, 0) (1, 1) (1, 0) (1, 1) = false := by
  constructor
  · intro p1 s1 p2 s2 h11 h12 h21 h22
    rw [Player.check_aabb_collision_eq_true]
    constructor
    · rintro ⟨⟨ha, hb⟩, ⟨hc, hd⟩⟩
      constructor
      · refine ⟨(max (p1.1 - s1.1 / 2) (p2.1 - s2.1 / 2) +
            min (p1.1 + s1.1 / 2) (p2.1 + s2.1 / 2)) / 2, ?_, ?_, ?_, ?_⟩ <;>
        · have h1 := le_max_left (p1.1 - s1.1 / 2) (p2.1 - s2.1 / 2)
          have h2 := le_max_right (p1.1 - s1.1 / 2) (p2.1 - s2.1 / 2)
          have h3 := min_le_left (p1.1 + s1.1 / 2) (p2.1 + s2.1 / 2)
          have h4 := min_le_right (p1.1 + s1.1 / 2) (p2.1 + s2.1 / 2)
          have hlt : max (p1.1 - s1.1 / 2) (p2.1 - s2.1 / 2) <
              min (p1.1 + s1.1 / 2) (p2.1 + s2.1 / 2) := by
            apply max_lt <;> apply lt_min <;> linarith
          linarith
      · refine ⟨(max (p1.2 - s1.2 / 2) (p2.2 - s2.2 / 2) +
            min (p1.2 + s1.2 / 2) (p2.2 + s2.2 / 2)) / 2, ?_, ?_, ?_, ?_⟩ <;>
        · have h1 := le_max_left (p1.2 - s1.2 / 2) (p2.2 - s2.2 / 2)
          have h2 := le_max_right (p1.2 - s1.2 / 2) (p2.2 - s2.2 / 2)
          have h3 := min_le_left (p1.2 + s1.2 / 2) (p2.2 + s2.2 / 2)
          have h4 := min_le_right (p1.2 + s1.2 / 2) (p2.2 + s2.2 / 2)
          have hlt : max (p1.2 - s1.2 / 2) (p2.2 - s2.2 / 2) <
              min (p1.2 + s1.2 / 2) (p2.2 + s2.2 / 2) := by
            apply max_lt <;> apply lt_min <;> linarith
          linarith
    · rintro ⟨⟨qx, hx1, hx2, hx3, hx4⟩, ⟨qy, hy1, hy2, hy3, hy4⟩⟩
      refine ⟨⟨by linarith, by linarith⟩, by linarith, by linarith⟩
  · rw [Bool.eq_false_iff]
    intro hc
    rw [Player.check_aabb_collision_eq_true] at hc
    norm_num at hc

/-- C5, witness: two unit boxes overlapping by half a unit in x do collide. -/
theorem c5_witness :
    Player.check_aabb_collision (0, 0) (1, 1) (1 / 2, 0) (1, 1) = true := by
  refine (c5_aabb_open_overlap.1 (0, 0) (1, 1) (1 / 2, 0) (1, 1)
    (by norm_num) (by norm_num) (by norm_num) (by norm_num)).mpr
    ⟨⟨1 / 4, by norm_num⟩, ⟨0, by norm_num⟩⟩

/-- C6: each frame a projectile tests its single proposed next position; it
despawns (position untouched) exactly when some Wall tile overlaps that
position, and otherwise advances by exactly the full movement vector; in
particular a projectile at a floor tile center heading into the adjacent
wall tile of `[[Floor, Wall]]` is removed on its very first step. -/
theorem c6_projectile_step :
    (∀ (g : Grid) (pos dir : ℚ × ℚ) (speed dt : ℚ) (size : ℚ × ℚ),
      Player.fitsArena g →
      ((Player.projectileStep g pos dir speed dt size = none ↔
         Player.overlapsSomeWall g
           (pos.1 + dir.1 * speed * dt, pos.2 + dir.2 * speed * dt) size = true) ∧
       (Player.projectileStep g pos dir speed dt size = none ∨
        Player.projectileStep g pos dir speed dt size =
          some (pos.1 + dir.1 * speed * dt, pos.2 + dir.2 * speed * dt)))) ∧
    Player.projectileStep [[Floor, Wall]] (Player.tileCenterWorld 0 0) (1, 0)
      400 (1 / 100) (10, 4) = none := by
  have hmain : ∀ (g : Grid) (pos dir : ℚ × ℚ) (speed dt : ℚ) (size : ℚ × ℚ),
      Player.fitsArena g →
      ((Player.projectileStep g pos dir speed dt size = none ↔
         Player.overlapsSomeWall g
           (pos.1 + dir.1 * speed * dt, pos.2 + dir.2 * speed * dt) size = true) ∧
       (Player.projectileStep g pos dir speed dt size = none ∨
        Player.projectileStep g pos dir speed dt size =
          some (pos.1 + dir.1 * speed * dt, pos.2 + dir.2 * speed * dt))) := by
    intro g pos dir speed dt size hfit
    rw [Player.projectileStep, Player.collidesAt_eq_overlapsSomeWall hfit]
    cases hb : Player.overlapsSomeWall g
        (pos.1 + dir.1 * speed * dt, pos.2 + dir.2 * speed * dt) size with
    | true => simp
    | false => simp
  refine ⟨hmain, ?_⟩
  have hfit : Player.fitsArena [[Floor, Wall]] := by constructor <;> decide
  refine ((hmain [[Floor, Wall]] (Player.tileCenterWorld 0 0) (1, 0) 400 (1 / 100)
    (10, 4) hfit).1).mpr ?_
  rw [Player.overlapsSomeWall_floorWall, Player.check_aabb_collision_eq_true]
  norm_num [Player.tileCenterWorld, Player.arenaOffsetX, Player.arenaOffsetY,
    Arena.TILE_SIZE, Arena.ARENA_WIDTH_TILES, Arena.ARENA_HEIGHT_TILES]

/-- C6, witness: instantiating the dichotomy on `[[Floor, Wall]]` for a
projectile fired from the floor tile center. -/
theorem c6_witness :
    Player.projectileStep [[Floor, Wall]] (Player.tileCenterWorld 0 0) (1, 0)
        400 (1 / 100) (10, 4) = none ∨
    Player.projectileStep [[Floor, Wall]] (Player.tileCenterWorld 0 0) (1, 0)
        400 (1 / 100) (10, 4) =
      some ((Player.tileCenterWorld 0 0).1 + 1 * 400 * (1 / 100),
            (Player.tileCenterWorld 0 0).2 + 0 * 400 * (1 / 100)) :=
  (c6_projectile_step.1 [[Floor, Wall]] (Player.tileCenterWorld 0 0) (1, 0)
    400 (1 / 100) (10, 4) (by constructor <;> decide)).2

/-- C7: the spatial query clamps its grid index window to
`[0, dimension - 1]` on both axes before indexing (so cells beyond the grid
are never dereferenced and the query never fails), and a window entirely
outside the arena yields zero candidate walls. -/
theorem c7_query_clamped :
    (∀ p s : ℚ × ℚ,
      (∀ gx ∈ Player.queryRangeX p s, 0 ≤ gx ∧ gx < (Arena.ARENA_WIDTH_TILES : Int)) ∧
      (∀ gy ∈ Player.queryRangeY p s, 0 ≤ gy ∧ gy < (Arena.ARENA_HEIGHT_TILES : Int))) ∧
    (∀ (p s : ℚ × ℚ) (g : Grid),
      p.1 + s.1 / 2 + 2 * Arena.TILE_SIZE ≤ Player.arenaOffsetX →
      Player.get_nearby_wall_positions_world p s g = []) := by
  constructor
  · intro p s
    constructor
    · intro gx hgx
      rw [Player.queryRangeX, mem_intRange] at hgx
      constructor
      · omega
      · have : (Arena.ARENA_WIDTH_TILES : Int) = 86 := by norm_num [Arena.ARENA_WIDTH_TILES]
        omega
    · intro gy hgy
      rw [Player.queryRangeY, mem_intRange] at hgy
      constructor
      · omega
      · have : (Arena.ARENA_HEIGHT_TILES : Int) = 49 := by norm_num [Arena.ARENA_HEIGHT_TILES]
        omega
  · intro p s g hfar
    have hT : (0 : ℚ) < Arena.TILE_SIZE := by norm_num [Arena.TILE_SIZE]
    have hce : ⌈(p.1 + s.1 / 2 + Arena.TILE_SIZE - Player.arenaOffsetX) / Arena.TILE_SIZE⌉ ≤ -1 := by
      rw [Int.ceil_le]
      rw [div_le_iff₀ hT]
      push_cast
      linarith
    have hempty : Player.queryRangeX p s = [] := by
      rw [Player.queryRangeX]
      apply Player.intRange_eq_nil
      have h0 : (0 : Int) ≤ max ⌊(p.1 - s.1 / 2 - Arena.TILE_SIZE - Player.arenaOffsetX) / Arena.TILE_SIZE⌋ 0 :=
        le_max_right _ _
      have h86 : min ⌈(p.1 + s.1 / 2 + Arena.TILE_SIZE - Player.arenaOffsetX) / Arena.TILE_SIZE⌉
          ((Arena.ARENA_WIDTH_TILES : Int) - 1) ≤ -1 :=
        le_trans (min_le_left _ _) hce
      omega
    rw [Player.get_nearby_wall_positions_world, hempty]
    simp

/-- C7, witness: a query centered far to the left of the arena returns no
candidate walls. -/
theorem c7_witness :
    Player.get_nearby_wall_positions_world (-2000, 0) (10, 10) [[Wall]] = [] := by
  apply c7_query_clamped.2
  norm_num [Arena.TILE_SIZE, Player.arenaOffsetX, Arena.ARENA_WIDTH_TILES]

/-- C2: after either generation strategy completes (spawn clearing included),
every cell of the border ring — row `0`, row `height-1`, column `0`, column
`width-1` — is Wall. For the noise cave generator this holds for every
nonempty grid and every noise oracle; for the room generator for every grid
it actually returns and every obstacle oracle. -/
theorem c2_border_ring_wall :
    (∀ (noise : Nat → Nat → ℚ) (w h : Nat), 1 ≤ w → 1 ≤ h →
      ∀ x y : Nat, x < w → y < h → (x = 0 ∨ x = w - 1 ∨ y = 0 ∨ y = h - 1) →
      tileAtN (Arena.arenaGridNew noise w h) x y = Wall) ∧
    (∀ (w h : Nat) (oracle : Nat → Nat → Option (Nat × Nat)) (g : Grid),
      ArenaRooms.arenaGridNew w h oracle = some g →
      ∀ x y : Nat, x < w → y < h → (x = 0 ∨ x = w - 1 ∨ y = 0 ∨ y = h - 1) →
      tileAtN g x y = Wall) := by
  constructor
  · intro noise w h _ _ x y hx hy hb
    exact Arena.arena_border_wall noise hx hy hb
  · intro w h oracle g hsome x y hx hy hb
    rw [ArenaRooms.arenaGridNew] at hsome
    by_cases hok : ArenaRooms.roomParamsOk w h = true
    · rw [if_pos hok, Option.some_inj] at hsome
      rw [← hsome]
      exact ArenaRooms.rooms_border_wall w h oracle hok hx hy hb
    · rw [if_neg hok] at hsome
      exact absurd hsome (by simp)

/-- C2, witness: the corner cell of an 86 × 49 cave grid (all-zero noise) and
of the 50 × 40 room grid (no obstacle rolls) is Wall. -/
theorem c2_witness :
    tileAtN (Arena.arenaGridNew (fun _ _ => 0) 86 49) 0 0 = Wall ∧
    Option.map (fun g => tileAtN g 0 0)
      (ArenaRooms.arenaGridNew 50 40 (fun _ _ => none)) = some Wall := by
  constructor
  · exact c2_border_ring_wall.1 (fun _ _ => 0) 86 49 (by norm_num) (by norm_num)
      0 0 (by norm_num) (by norm_num) (Or.inl rfl)
  · have hok : ArenaRooms.roomParamsOk 50 40 = true := by decide
    have heq : ArenaRooms.arenaGridNew 50 40 (fun _ _ => none) =
        some (ArenaRooms.buildGrid 50 40 (fun _ _ => none)) := by
      rw [ArenaRooms.arenaGridNew, if_pos hok]
    rw [heq, Option.map_some']
    exact congrArg some (c2_border_ring_wall.2 50 40 (fun _ _ => none)
      (ArenaRooms.buildGrid 50 40 (fun _ _ => none)) heq 0 0
      (by norm_num) (by norm_num) (Or.inl rfl))

/-- C3: after either generation strategy completes, the 3 × 3 block of cells
around the grid center cell `(width / 2, height / 2)` is entirely Floor,
whatever the noise classification, smoothing, or obstacle placement produced
there (cave: for grids of side at least 5; rooms: for every grid it actually
returns, whose sides are then at least 8). -/
theorem c3_spawn_center_floor :
    (∀ (noise : Nat → Nat → ℚ) (w h : Nat), 5 ≤ w → 5 ≤ h →
      ∀ x y : Nat, w / 2 - 1 ≤ x → x ≤ w / 2 + 1 → h / 2 - 1 ≤ y → y ≤ h / 2 + 1 →
      tileAtN (Arena.arenaGridNew noise w h) x y = Floor) ∧
    (∀ (w h : Nat) (oracle : Nat → Nat → Option (Nat × Nat)) (g : Grid),
      ArenaRooms.arenaGridNew w h oracle = some g →
      ∀ x y : Nat, w / 2 - 1 ≤ x → x ≤ w / 2 + 1 → h / 2 - 1 ≤ y → y ≤ h / 2 + 1 →
      tileAtN g x y = Floor) := by
  constructor
  · intro noise w h hw hh x y hx1 hx2 hy1 hy2
    exact Arena.arena_center_floor noise hw hh hx1 hx2 hy1 hy2
  · intro w h oracle g hsome x y hx1 hx2 hy1 hy2
    rw [ArenaRooms.arenaGridNew] at hsome
    by_cases hok : ArenaRooms.roomParamsOk w h = true
    · rw [if_pos hok, Option.some_inj] at hsome
      rw [← hsome]
      exact ArenaRooms.rooms_center_floor w h oracle hok hx1 hx2 hy1 hy2
    · rw [if_neg hok] at hsome
      exact absurd hsome (by simp)

/-- C3, witness: the center cell of an 86 × 49 cave grid generated from
all-wall noise (every sample above the threshold) is still Floor, and so is
the center of the 50 × 40 room grid. -/
theorem c3_witness :
    tileAtN (Arena.arenaGridNew (fun _ _ => 1) 86 49) 43 24 = Floor ∧
    Option.map (fun g => tileAtN g 25 20)
      (ArenaRooms.arenaGridNew 50 40 (fun _ _ => none)) = some Floor := by
  constructor
  · exact c3_spawn_center_floor.1 (fun _ _ => 1) 86 49 (by norm_num) (by norm_num)
      43 24 (by norm_num) (by norm_num) (by norm_num) (by norm_num)
  · have hok : ArenaRooms.roomParamsOk 50 40 = true := by decide
    have heq : ArenaRooms.arenaGridNew 50 40 (fun _ _ => none) =
        some (ArenaRooms.buildGrid 50 40 (fun _ _ => none)) := by
      rw [ArenaRooms.arenaGridNew, if_pos hok]
    rw [heq, Option.map_some']
    exact congrArg some (c3_spawn_center_floor.2 50 40 (fun _ _ => none)
      (ArenaRooms.buildGrid 50 40 (fun _ _ => none)) heq 25 20
      (by norm_num) (by norm_num) (by norm_num) (by norm_num))

/-- C8: the claim says the room generator never fails for dimensions below
`2 * padding + minimum room size = 14`, clamping instead. In the code the
clamp itself makes `room_width = 8` exceed a width of at most 7, and
`(width - room_width) / 2` underflows: a panic in debug builds, and in
release builds the wrapped room start drives `grid[y][x]` out of bounds in
the obstacle loops. The model returns `none` exactly there: evaluation at
the failing input `width = 6, height = 10`. -/
theorem c8_small_dims_fail (oracle : Nat → Nat → Option (Nat × Nat)) :
    ArenaRooms.arenaGridNew 6 10 oracle = none := by
  rw [ArenaRooms.arenaGridNew, if_neg (by decide)]

/-- The neighbor tally splits as in-bounds Wall neighbors plus out-of-bounds
positions, whatever the starting accumulator. -/
theorem count_fold_split (g : Grid) (x y w h : Nat) :
    ∀ (l : List (Int × Int)) (n : Nat),
      l.foldl
        (fun count ij =>
          if Arena.neighborInBounds x y w h ij then
            (if tileAt g ((x : Int) + ij.1) ((y : Int) + ij.2) = Wall then count + 1
             else count)
          else count + 1)
        n =
      n +
        l.countP (fun ij =>
          decide (Arena.neighborInBounds x y w h ij ∧
            tileAt g ((x : Int) + ij.1) ((y : Int) + ij.2) = Wall)) +
        l.countP (fun ij => decide (¬ Arena.neighborInBounds x y w h ij)) := by
  intro l
  induction l with
  | nil =>
    intro n
    simp
  | cons hd tl ih =>
    intro n
    rw [List.foldl_cons, List.countP_cons, List.countP_cons]
    by_cases hb : Arena.neighborInBounds x y w h hd
    · by_cases hwall : tileAt g ((x : Int) + hd.1) ((y : Int) + hd.2) = Wall
      · rw [if_pos hb, if_pos hwall, ih]
        rw [if_pos (show (decide (Arena.neighborInBounds x y w h hd ∧
            tileAt g ((x : Int) + hd.1) ((y : Int) + hd.2) = Wall)) = true by
          simp [hb, hwall])]
        rw [if_neg (show ¬ (decide (¬ Arena.neighborInBounds x y w h hd)) = true by
          simp [hb])]
        omega
      · rw [if_pos hb, if_neg hwall, ih]
        rw [if_neg (show ¬ (decide (Arena.neighborInBounds x y w h hd ∧
            tileAt g ((x : Int) + hd.1) ((y : Int) + hd.2) = Wall)) = true by
          simp [hwall])]
        rw [if_neg (show ¬ (decide (¬ Arena.neighborInBounds x y w h hd)) = true by
          simp [hb])]
        omega
    · rw [if_neg hb, ih]
      rw [if_neg (show ¬ (decide (Arena.neighborInBounds x y w h hd ∧
          tileAt g ((x : Int) + hd.1) ((y : Int) + hd.2) = Wall)) = true by
        simp [hb])]
      rw [if_pos (show (decide (¬ Arena.neighborInBounds x y w h hd)) = true by
        simp [hb])]
      omega

/-- C9: `count_wall_neighbors` counts exactly the in-bounds Wall neighbors
plus one for each of the 8 neighbor offsets that falls outside the grid —
every out-of-bounds neighbor position is counted as a Wall neighbor. -/
theorem c9_count_wall_neighbors (g : Grid) (x y w h : Nat) :
    Arena.count_wall_neighbors g x y w h =
      Arena.neighborOffsets.countP (fun ij =>
        decide (Arena.neighborInBounds x y w h ij ∧
          tileAt g ((x : Int) + ij.1) ((y : Int) + ij.2) = Wall)) +
      Arena.neighborOffsets.countP (fun ij =>
        decide (¬ Arena.neighborInBounds x y w h ij)) := by
  rw [Arena.count_wall_neighbors, count_fold_split g x y w h Arena.neighborOffsets 0]
  omega

/-- C10: enemy spawning places at most `MAX_ENEMIES_SPAWN = 10` enemies; each
sits at the world center of a Floor cell with `x ∈ [2, width-3]`,
`y ∈ [2, height-3]` and squared tile distance to the center cell greater
than 25 (never inside a wall, on the border ring, or in the spawn-safety
neighborhood); and with no eligible cell, zero enemies are spawned. `picks`
is the list of per-iteration random indices, one per loop iteration. -/
theorem c10_spawn_enemies (a : ArenaGrid) (picks : List Nat)
    (hlen : picks.length = Enemy.MAX_ENEMIES_SPAWN) :
    (Enemy.spawn_enemies a picks).length ≤ Enemy.MAX_ENEMIES_SPAWN ∧
    (∀ e ∈ Enemy.spawn_enemies a picks, ∃ x y : Nat,
      tileAtN a.grid x y = Floor ∧ 1 < x ∧ x < a.width - 2 ∧
      1 < y ∧ y < a.height - 2 ∧
      25 < ((x : Int) - ((a.width / 2 : Nat) : Int)) ^ 2 +
           ((y : Int) - ((a.height / 2 : Nat) : Int)) ^ 2 ∧
      e = Player.tileCenterWorld (x : Int) (y : Int)) ∧
    (Enemy.floorTiles a = [] → Enemy.spawn_enemies a picks = []) := by
  refine ⟨?_, ?_, ?_⟩
  · rw [Enemy.spawn_enemies]
    by_cases hemp : (Enemy.floorTiles a).isEmpty
    · rw [if_pos hemp]
      simp
    · rw [if_neg hemp]
      calc (picks.filterMap _).length ≤ picks.length := List.length_filterMap_le _ _
        _ = Enemy.MAX_ENEMIES_SPAWN := hlen
  · intro e he
    rw [Enemy.spawn_enemies] at he
    by_cases hemp : (Enemy.floorTiles a).isEmpty
    · rw [if_pos hemp] at he
      exact absurd he (List.not_mem_nil e)
    · rw [if_neg hemp] at he
      rw [List.mem_filterMap] at he
      obtain ⟨i, -, hmap⟩ := he
      rw [Option.map_eq_some'] at hmap
      obtain ⟨c, hget, hc⟩ := hmap
      have hmem : c ∈ Enemy.floorTiles a := List.getElem?_mem hget
      obtain ⟨h1, h2, h3, h4, h5, h6⟩ := Enemy.mem_floorTiles hmem
      exact ⟨c.1, c.2, h1, h2, h3, h4, h5, h6, hc.symm⟩
  · intro hnil
    rw [Enemy.spawn_enemies, if_pos (by rw [hnil]; rfl)]

/-- C10, witness: on a small grid with one eligible Floor cell at `(2, 2)`,
ten zero draws spawn at most ten enemies. -/
theorem c10_witness :
    (Enemy.spawn_enemies ⟨[[], [], [Wall, Wall, Floor]], 86, 49⟩
      (List.replicate 10 0)).length ≤ Enemy.MAX_ENEMIES_SPAWN :=
  (c10_spawn_enemies ⟨[[], [], [Wall, Wall, Floor]], 86, 49⟩
    (List.replicate 10 0) (by simp [Enemy.MAX_ENEMIES_SPAWN])).1

end RustyGungeon
